import Mathlib

/-!
Verification of the posture-analysis core of the Smart Posture Estimation
repository (`PostureEstimation/posture_analyzer.py`).

The Python module is shallowly embedded as follows.

* Landmark coordinates and visibility scores (Python floats produced by the
  detection model) are modelled as rationals; the real-valued geometry
  (`math.sqrt`, `math.atan2`, `math.degrees`) is modelled over `ℝ`.
* Python `int(...)` truncation toward zero is `pyIntQ` / `pyIntR`;
  Python `//` floor division on ints is `Int.fdiv`.
* The result dictionaries of `analyze_posture` are the tagged type
  `PostureResult`: the `has_landmarks: False` dictionaries become
  `PostureResult.unavailable message visibility?`, and the full dictionary
  becomes `PostureResult.assessment` carrying every returned field.
* Indexing `lm[i]` on the landmark list raises `IndexError` exactly when the
  list has no index `i`; the required indices are `0 ..= 24`, so the
  `try/except IndexError` around the body is embedded as a guard
  `25 ≤ lm.length`, with the `except` branch returning the
  "Error processing landmarks" result.
* `cv2` drawing primitives are external collaborators; they are abstracted as
  a `DrawOps` record, and `draw_pose_annotations` folds them over the frame.
-/

namespace PostureEstimation

/-- Python `int(x)` on a rational: truncation toward zero. -/
def pyIntQ (q : ℚ) : ℤ := if 0 ≤ q then ⌊q⌋ else -⌊-q⌋

/-- Python `int(x)` on a real: truncation toward zero. -/
noncomputable def pyIntR (r : ℝ) : ℤ := if 0 ≤ r then ⌊r⌋ else -⌊-r⌋

/-- `math.degrees`: radians to degrees. -/
noncomputable def degrees (r : ℝ) : ℝ := r * 180 / Real.pi

/-- `math.atan2 y x` on reals (signed zeros do not exist in `ℝ`;
`atan2 0 0 = 0` as in CPython for positive zeros). -/
noncomputable def atan2 (y x : ℝ) : ℝ :=
  if 0 < x then Real.arctan (y / x)
  else if x < 0 ∧ 0 ≤ y then Real.arctan (y / x) + Real.pi
  else if x < 0 then Real.arctan (y / x) - Real.pi
  else if 0 < y then Real.pi / 2
  else if y < 0 then -(Real.pi / 2)
  else 0

/-- `PostureAnalyzer.find_distance`: Euclidean distance between two points. -/
noncomputable def find_distance (x1 y1 x2 y2 : ℝ) : ℝ :=
  Real.sqrt ((x2 - x1) ^ 2 + (y2 - y1) ^ 2)

/-- `PostureAnalyzer.find_angle`: `int(degrees(atan2(abs(x2 - x1), abs(y2 - y1))))`.
The `try/except` in the source is dead code on finite inputs: the arithmetic
is total, which the embedding reflects by being a total function. -/
noncomputable def find_angle (x1 y1 x2 y2 : ℝ) : ℤ :=
  pyIntR (degrees (atan2 |x2 - x1| |y2 - y1|))

/-- A detected body landmark: normalized position and visibility confidence. -/
structure Landmark where
  x : ℚ
  y : ℚ
  visibility : ℚ

/-- MediaPipe `PoseLandmark` indices used by the analyzer. -/
def NOSE : ℕ := 0

def LEFT_EYE : ℕ := 2

def RIGHT_EYE : ℕ := 5

def LEFT_EAR : ℕ := 7

def RIGHT_EAR : ℕ := 8

def LEFT_SHOULDER : ℕ := 11

def RIGHT_SHOULDER : ℕ := 12

def LEFT_HIP : ℕ := 23

def RIGHT_HIP : ℕ := 24

/-- The `posture_assessment` label dictionary of the full result. -/
structure PostureLabels where
  shoulder_balance : String
  neck_position : String
  torso_position : String
  overall : String

/-- The `landmarks` pixel-coordinate dictionary of the full result. -/
structure LandmarkPixels where
  mid_shoulder : ℤ × ℤ
  mid_hip : ℤ × ℤ
  mid_ear : ℤ × ℤ
  l_shldr : ℤ × ℤ
  r_shldr : ℤ × ℤ
  l_ear : ℤ × ℤ
  r_ear : ℤ × ℤ
  l_hip : ℤ × ℤ
  r_hip : ℤ × ℤ

/-- The full (`has_landmarks: True`) result dictionary of `analyze_posture`. -/
structure FullAssessment where
  shoulder_offset : ℤ
  shoulder_distance : ℝ
  neck_inclination : ℤ
  torso_inclination : ℤ
  forward_head_ratio : ℝ
  is_aligned : Prop
  is_neck_good : Prop
  is_torso_good : Prop
  is_head_position_good : Prop
  is_good_posture : Prop
  posture_assessment : PostureLabels
  visibility : List (String × ℚ)
  landmarks : LandmarkPixels

/-- The tagged return value of `analyze_posture`: either a
`has_landmarks: False` dictionary (message, optional visibility map) or the
full assessment. -/
inductive PostureResult where
  | unavailable (message : String) (visibility : Option (List (String × ℚ)))
  | assessment (a : FullAssessment)

/-- The `has_landmarks` field of the returned dictionary. -/
def PostureResult.has_landmarks : PostureResult → Bool
  | .unavailable _ _ => false
  | .assessment _ => true

/-- `visibility_threshold = 0.5` from `analyze_posture`. -/
def visibility_threshold : ℚ := 1 / 2

/-- The `landmarks_visibility` dictionary (insertion order of the source). -/
def visibilityMapOf (left_ear right_ear left_shoulder right_shoulder left_hip right_hip :
    Landmark) : List (String × ℚ) :=
  [("l_shoulder", left_shoulder.visibility),
   ("r_shoulder", right_shoulder.visibility),
   ("l_ear", left_ear.visibility),
   ("r_ear", right_ear.visibility),
   ("l_hip", left_hip.visibility),
   ("r_hip", right_hip.visibility)]

open Classical in
/-- The full-assessment computation of `analyze_posture` (source lines
107-180): coordinate projection, midpoints, metrics, thresholds, labels. -/
noncomputable def fullAssessmentOf (left_ear right_ear left_shoulder right_shoulder left_hip
    right_hip : Landmark) (h w : ℕ) : FullAssessment :=
  let l_shldr_x := pyIntQ (left_shoulder.x * (w : ℚ))
  let l_shldr_y := pyIntQ (left_shoulder.y * (h : ℚ))
  let r_shldr_x := pyIntQ (right_shoulder.x * (w : ℚ))
  let r_shldr_y := pyIntQ (right_shoulder.y * (h : ℚ))
  let l_ear_x := pyIntQ (left_ear.x * (w : ℚ))
  let l_ear_y := pyIntQ (left_ear.y * (h : ℚ))
  let r_ear_x := pyIntQ (right_ear.x * (w : ℚ))
  let r_ear_y := pyIntQ (right_ear.y * (h : ℚ))
  let l_hip_x := pyIntQ (left_hip.x * (w : ℚ))
  let l_hip_y := pyIntQ (left_hip.y * (h : ℚ))
  let r_hip_x := pyIntQ (right_hip.x * (w : ℚ))
  let r_hip_y := pyIntQ (right_hip.y * (h : ℚ))
  let mid_shoulder_x := Int.fdiv (l_shldr_x + r_shldr_x) 2
  let mid_shoulder_y := Int.fdiv (l_shldr_y + r_shldr_y) 2
  let mid_hip_x := Int.fdiv (l_hip_x + r_hip_x) 2
  let mid_hip_y := Int.fdiv (l_hip_y + r_hip_y) 2
  let mid_ear_x := Int.fdiv (l_ear_x + r_ear_x) 2
  let mid_ear_y := Int.fdiv (l_ear_y + r_ear_y) 2
  let shoulder_offset := |l_shldr_y - r_shldr_y|
  let shoulder_distance :=
    find_distance (l_shldr_x : ℝ) (l_shldr_y : ℝ) (r_shldr_x : ℝ) (r_shldr_y : ℝ)
  let neck_inclination :=
    find_angle (mid_shoulder_x : ℝ) (mid_shoulder_y : ℝ) (mid_ear_x : ℝ) (mid_ear_y : ℝ)
  let torso_inclination :=
    find_angle (mid_hip_x : ℝ) (mid_hip_y : ℝ) (mid_shoulder_x : ℝ) (mid_shoulder_y : ℝ)
  let forward_head_distance : ℤ :=
    if mid_shoulder_x < mid_ear_x then mid_ear_x - mid_shoulder_x else 0
  let forward_head_ratio : ℝ :=
    if 0 < shoulder_distance then (forward_head_distance : ℝ) / shoulder_distance else 0
  let is_aligned := shoulder_offset < 30
  let is_neck_good := neck_inclination < 35
  let is_torso_good := torso_inclination < 10
  let is_head_position_good := forward_head_ratio < 0.2
  let is_good_posture := is_aligned ∧ is_neck_good ∧ is_torso_good ∧ is_head_position_good
  { shoulder_offset := shoulder_offset
    shoulder_distance := shoulder_distance
    neck_inclination := neck_inclination
    torso_inclination := torso_inclination
    forward_head_ratio := forward_head_ratio
    is_aligned := is_aligned
    is_neck_good := is_neck_good
    is_torso_good := is_torso_good
    is_head_position_good := is_head_position_good
    is_good_posture := is_good_posture
    posture_assessment :=
      { shoulder_balance := if is_aligned then "Good" else "Poor"
        neck_position := if is_neck_good then "Good" else "Forward head posture"
        torso_position := if is_torso_good then "Good" else "Slouching"
        overall := if is_good_posture then "Good" else "Needs improvement" }
    visibility :=
      visibilityMapOf left_ear right_ear left_shoulder right_shoulder left_hip right_hip
    landmarks :=
      { mid_shoulder := (mid_shoulder_x, mid_shoulder_y)
        mid_hip := (mid_hip_x, mid_hip_y)
        mid_ear := (mid_ear_x, mid_ear_y)
        l_shldr := (l_shldr_x, l_shldr_y)
        r_shldr := (r_shldr_x, r_shldr_y)
        l_ear := (l_ear_x, l_ear_y)
        r_ear := (r_ear_x, r_ear_y)
        l_hip := (l_hip_x, l_hip_y)
        r_hip := (r_hip_x, r_hip_y) } }

/-- The body of the `try` block after landmark extraction: build the
visibility dictionary, apply the visibility gate, otherwise produce the full
assessment. -/
noncomputable def computeAssessment (nose left_eye right_eye left_ear right_ear left_shoulder
    right_shoulder left_hip right_hip : Landmark) (h w : ℕ) : PostureResult :=
  if left_shoulder.visibility < visibility_threshold ∨
      right_shoulder.visibility < visibility_threshold ∨
      left_hip.visibility < visibility_threshold then
    .unavailable "Key landmarks not visible enough"
      (some (visibilityMapOf left_ear right_ear left_shoulder right_shoulder left_hip right_hip))
  else
    .assessment
      (fullAssessmentOf left_ear right_ear left_shoulder right_shoulder left_hip right_hip h w)

/-- Total lookup in the landmark list (Python `lm[i]`, with a default that is
only ever used when the index is out of range, i.e. when Python would raise). -/
def getLm (lm : List Landmark) (i : ℕ) : Landmark := (lm[i]?).getD ⟨0, 0, 0⟩

/-- `PostureAnalyzer.analyze_posture`.  The detection result is
`Option (Option (List Landmark))`: `none` models a falsy `results` object and
`some none` models `results.pose_landmarks` being `None`.  Indexing
`lm[0] .. lm[24]` raises `IndexError` exactly when the list is shorter than
25 entries, which the `except (IndexError, AttributeError)` handler converts
into an unavailable result with the exception text. -/
noncomputable def analyzePosture (results : Option (Option (List Landmark))) (h w : ℕ) :
    PostureResult :=
  match results with
  | none => .unavailable "No pose landmarks detected." none
  | some none => .unavailable "No pose landmarks detected." none
  | some (some lm) =>
    if 25 ≤ lm.length then
      computeAssessment (getLm lm NOSE) (getLm lm LEFT_EYE) (getLm lm RIGHT_EYE)
        (getLm lm LEFT_EAR) (getLm lm RIGHT_EAR) (getLm lm LEFT_SHOULDER)
        (getLm lm RIGHT_SHOULDER) (getLm lm LEFT_HIP) (getLm lm RIGHT_HIP) h w
    else
      .unavailable "Error processing landmarks: list index out of range" none

/-- Abstract `cv2` drawing collaborators: `cv2.line`, `cv2.putText`, and the
`frame.shape[:2]` accessor.  Colors are BGR triples, the last argument is the
stroke thickness. -/
structure DrawOps (F : Type) where
  line : F → ℤ × ℤ → ℤ × ℤ → ℕ × ℕ × ℕ → ℕ → F
  putText : F → String → ℤ × ℤ → ℚ → ℕ × ℕ × ℕ → ℕ → F
  shape : F → ℕ × ℕ

/-- `good_color = (0, 255, 0)` (BGR green). -/
def good_color : ℕ × ℕ × ℕ := (0, 255, 0)

/-- `bad_color = (0, 0, 255)` (BGR red). -/
def bad_color : ℕ × ℕ × ℕ := (0, 0, 255)

open Classical in
/-- `PostureAnalyzer.draw_pose_annotations`: returns the frame unchanged when
`posture_data` is falsy or `has_landmarks` is false, otherwise draws the
diagnostic lines and text.  In the full result every key of the `landmarks`
dictionary is present, so every membership test of the source succeeds. -/
noncomputable def draw_pose_annotations {F : Type} (ops : DrawOps F) (frame : F)
    (posture_data : Option PostureResult) : F :=
  match posture_data with
  | none => frame
  | some (.unavailable _ _) => frame
  | some (.assessment a) =>
    let color := if a.is_good_posture then good_color else bad_color
    let f1 := ops.line frame a.landmarks.mid_shoulder a.landmarks.mid_ear color 2
    let f2 := ops.line f1 a.landmarks.mid_shoulder a.landmarks.mid_hip color 2
    let f3 := ops.line f2 a.landmarks.mid_shoulder
      (a.landmarks.mid_shoulder.1, a.landmarks.mid_shoulder.2 - 150) (255, 255, 0) 2
    let f4 := ops.line f3 a.landmarks.l_shldr a.landmarks.r_shldr color 3
    let hw := ops.shape f4
    let f5 := ops.putText f4 ("Neck: " ++ toString a.neck_inclination ++ "°") (10, 30)
      (3 / 5) color 2
    let f6 := ops.putText f5 ("Torso: " ++ toString a.torso_inclination ++ "°") (10, 60)
      (3 / 5) color 2
    ops.putText f6 ("Posture: " ++ a.posture_assessment.overall) (10, (hw.1 : ℤ) - 20)
      (3 / 5) color 2

/-- A concrete 25-entry landmark list: shoulders, hips fully visible, both
ears with visibility 0; shoulders level at normalized height 1/2. -/
def goodLm : List Landmark :=
  [⟨0, 0, 1⟩, ⟨0, 0, 1⟩, ⟨0, 0, 1⟩, ⟨0, 0, 1⟩, ⟨0, 0, 1⟩, ⟨0, 0, 1⟩, ⟨0, 0, 1⟩,
   ⟨3/5, 1/5, 0⟩, ⟨3/5, 1/5, 0⟩,
   ⟨0, 0, 1⟩, ⟨0, 0, 1⟩,
   ⟨4/5, 1/2, 1⟩, ⟨2/5, 1/2, 1⟩,
   ⟨0, 0, 1⟩, ⟨0, 0, 1⟩, ⟨0, 0, 1⟩, ⟨0, 0, 1⟩, ⟨0, 0, 1⟩,
   ⟨0, 0, 1⟩, ⟨0, 0, 1⟩, ⟨0, 0, 1⟩, ⟨0, 0, 1⟩, ⟨0, 0, 1⟩,
   ⟨3/5, 9/10, 1⟩, ⟨3/5, 9/10, 1⟩]

/-- The same list with the right shoulder at visibility 3/10 < 0.5. -/
def badLm : List Landmark :=
  [⟨0, 0, 1⟩, ⟨0, 0, 1⟩, ⟨0, 0, 1⟩, ⟨0, 0, 1⟩, ⟨0, 0, 1⟩, ⟨0, 0, 1⟩, ⟨0, 0, 1⟩,
   ⟨3/5, 1/5, 0⟩, ⟨3/5, 1/5, 0⟩,
   ⟨0, 0, 1⟩, ⟨0, 0, 1⟩,
   ⟨4/5, 1/2, 1⟩, ⟨2/5, 1/2, 3/10⟩,
   ⟨0, 0, 1⟩, ⟨0, 0, 1⟩, ⟨0, 0, 1⟩, ⟨0, 0, 1⟩, ⟨0, 0, 1⟩,
   ⟨0, 0, 1⟩, ⟨0, 0, 1⟩, ⟨0, 0, 1⟩, ⟨0, 0, 1⟩, ⟨0, 0, 1⟩,
   ⟨3/5, 9/10, 1⟩, ⟨3/5, 9/10, 1⟩]

/-- The full assessment computed on `goodLm` in a 100 by 100 frame. -/
noncomputable def goodA : FullAssessment :=
  fullAssessmentOf (getLm goodLm LEFT_EAR) (getLm goodLm RIGHT_EAR)
    (getLm goodLm LEFT_SHOULDER) (getLm goodLm RIGHT_SHOULDER)
    (getLm goodLm LEFT_HIP) (getLm goodLm RIGHT_HIP) 100 100

/-- On `goodLm` the analyzer takes the full-assessment branch. -/
lemma analyze_good_eval :
    analyzePosture (some (some goodLm)) 100 100 = .assessment goodA := by
  show (if 25 ≤ goodLm.length then
      computeAssessment (getLm goodLm NOSE) (getLm goodLm LEFT_EYE) (getLm goodLm RIGHT_EYE)
        (getLm goodLm LEFT_EAR) (getLm goodLm RIGHT_EAR) (getLm goodLm LEFT_SHOULDER)
        (getLm goodLm RIGHT_SHOULDER) (getLm goodLm LEFT_HIP) (getLm goodLm RIGHT_HIP) 100 100
    else
      PostureResult.unavailable "Error processing landmarks: list index out of range" none) =
    .assessment goodA
  rw [if_pos (by decide)]
  unfold computeAssessment
  have hgate : ¬((getLm goodLm LEFT_SHOULDER).visibility < visibility_threshold ∨
      (getLm goodLm RIGHT_SHOULDER).visibility < visibility_threshold ∨
      (getLm goodLm LEFT_HIP).visibility < visibility_threshold) := by
    rw [show getLm goodLm LEFT_SHOULDER = ⟨4/5, 1/2, 1⟩ from rfl,
      show getLm goodLm RIGHT_SHOULDER = ⟨2/5, 1/2, 1⟩ from rfl,
      show getLm goodLm LEFT_HIP = ⟨3/5, 9/10, 1⟩ from rfl]
    norm_num [visibility_threshold]
  rw [if_neg hgate]
  rfl

/-- With at least 25 landmarks every required lookup succeeds and the
analyzer reaches the visibility gate. -/
lemma analyzePosture_of_length {lm : List Landmark} (hlen : 25 ≤ lm.length) (h w : ℕ) :
    analyzePosture (some (some lm)) h w =
      computeAssessment (getLm lm NOSE) (getLm lm LEFT_EYE) (getLm lm RIGHT_EYE)
        (getLm lm LEFT_EAR) (getLm lm RIGHT_EAR) (getLm lm LEFT_SHOULDER)
        (getLm lm RIGHT_SHOULDER) (getLm lm LEFT_HIP) (getLm lm RIGHT_HIP) h w := by
  simp only [analyzePosture]
  rw [if_pos hlen]

/-- Every full assessment returned by the analyzer is a value of
`fullAssessmentOf`. -/
lemma analyzePosture_assessment_inv {results : Option (Option (List Landmark))} {h w : ℕ}
    {a : FullAssessment} (heq : analyzePosture results h w = .assessment a) :
    ∃ le re ls rs lh rh : Landmark, a = fullAssessmentOf le re ls rs lh rh h w := by
  rcases results with _ | r
  · simp [analyzePosture] at heq
  · rcases r with _ | lm
    · simp [analyzePosture] at heq
    · simp only [analyzePosture] at heq
      by_cases hlen : 25 ≤ lm.length
      · rw [if_pos hlen] at heq
        unfold computeAssessment at heq
        by_cases hgate : (getLm lm LEFT_SHOULDER).visibility < visibility_threshold ∨
            (getLm lm RIGHT_SHOULDER).visibility < visibility_threshold ∨
            (getLm lm LEFT_HIP).visibility < visibility_threshold
        · rw [if_pos hgate] at heq
          exact absurd heq (by simp)
        · rw [if_neg hgate] at heq
          injection heq with h1
          exact ⟨_, _, _, _, _, _, h1.symm⟩
      · rw [if_neg hlen] at heq
        exact absurd heq (by simp)

/-- `(if a < b then b - a else 0) = max 0 (b - a)` on integers. -/
lemma ite_sub_eq_max {a b : ℤ} : (if a < b then b - a else 0) = max 0 (b - a) := by
  split_ifs with hc
  · exact (max_eq_right (by omega)).symm
  · exact (max_eq_left (by omega)).symm

/-- Claim C1: in every full assessment the four sub-judgments are the strict
threshold comparisons of the source (shoulder offset 30 px, neck 35 degrees,
torso 10 degrees, forward-head ratio 0.2) and the overall verdict is their
exact conjunction. -/
theorem c1_threshold_classification (results : Option (Option (List Landmark))) (h w : ℕ)
    (a : FullAssessment) (heq : analyzePosture results h w = .assessment a) :
    (a.is_aligned ↔ a.shoulder_offset < 30) ∧
    (a.is_neck_good ↔ a.neck_inclination < 35) ∧
    (a.is_torso_good ↔ a.torso_inclination < 10) ∧
    (a.is_head_position_good ↔ a.forward_head_ratio < 0.2) ∧
    (a.is_good_posture ↔
      (a.is_aligned ∧ a.is_neck_good ∧ a.is_torso_good ∧ a.is_head_position_good)) := by
  obtain ⟨le, re, ls, rs, lh, rh, ha⟩ := analyzePosture_assessment_inv heq
  subst ha
  exact ⟨Iff.rfl, Iff.rfl, Iff.rfl, Iff.rfl, Iff.rfl⟩

/-- Witness for C1 at a concrete frame. -/
theorem c1_witness :
    (goodA.is_aligned ↔ goodA.shoulder_offset < 30) ∧
    (goodA.is_neck_good ↔ goodA.neck_inclination < 35) ∧
    (goodA.is_torso_good ↔ goodA.torso_inclination < 10) ∧
    (goodA.is_head_position_good ↔ goodA.forward_head_ratio < 0.2) ∧
    (goodA.is_good_posture ↔
      (goodA.is_aligned ∧ goodA.is_neck_good ∧ goodA.is_torso_good ∧
        goodA.is_head_position_good)) :=
  c1_threshold_classification (some (some goodLm)) 100 100 goodA analyze_good_eval

/-- Claim C2: with all required lookups succeeding, the analyzer returns the
"Key landmarks not visible enough" variant with the six-key visibility map
exactly when one of left shoulder, right shoulder, left hip has visibility
below 0.5 (a visibility equal to 0.5 passes the gate). -/
theorem c2_visibility_gate (lm : List Landmark) (h w : ℕ) (hlen : 25 ≤ lm.length) :
    ((analyzePosture (some (some lm)) h w =
        .unavailable "Key landmarks not visible enough"
          (some (visibilityMapOf (getLm lm LEFT_EAR) (getLm lm RIGHT_EAR)
            (getLm lm LEFT_SHOULDER) (getLm lm RIGHT_SHOULDER)
            (getLm lm LEFT_HIP) (getLm lm RIGHT_HIP)))) ↔
      ((getLm lm LEFT_SHOULDER).visibility < visibility_threshold ∨
       (getLm lm RIGHT_SHOULDER).visibility < visibility_threshold ∨
       (getLm lm LEFT_HIP).visibility < visibility_threshold)) ∧
    (visibilityMapOf (getLm lm LEFT_EAR) (getLm lm RIGHT_EAR) (getLm lm LEFT_SHOULDER)
        (getLm lm RIGHT_SHOULDER) (getLm lm LEFT_HIP) (getLm lm RIGHT_HIP)).map Prod.fst =
      ["l_shoulder", "r_shoulder", "l_ear", "r_ear", "l_hip", "r_hip"] := by
  rw [analyzePosture_of_length hlen]
  refine ⟨?_, rfl⟩
  unfold computeAssessment
  constructor
  · intro heq
    by_contra hng
    rw [if_neg hng] at heq
    exact PostureResult.noConfusion heq
  · intro hd
    rw [if_pos hd]

/-- Witness for C2: right shoulder at visibility 0.3 in a full landmark
list. -/
theorem c2_witness :
    (getLm badLm RIGHT_SHOULDER).visibility = 3 / 10 ∧
    analyzePosture (some (some badLm)) 100 100 =
      .unavailable "Key landmarks not visible enough"
        (some (visibilityMapOf (getLm badLm LEFT_EAR) (getLm badLm RIGHT_EAR)
          (getLm badLm LEFT_SHOULDER) (getLm badLm RIGHT_SHOULDER)
          (getLm badLm LEFT_HIP) (getLm badLm RIGHT_HIP))) := by
  refine ⟨rfl, (c2_visibility_gate badLm 100 100 (by decide)).1.mpr ?_⟩
  right; left
  rw [show getLm badLm RIGHT_SHOULDER = ⟨2/5, 1/2, 3/10⟩ from rfl]
  norm_num [visibility_threshold]

/-- Claim C4: in every full assessment the forward-head distance is
`max 0 (mid_ear_x - mid_shoulder_x)` and the forward-head ratio is that
distance over the shoulder distance when the latter is positive, and 0 when
it is 0. -/
theorem c4_forward_head_safety (results : Option (Option (List Landmark))) (h w : ℕ)
    (a : FullAssessment) (heq : analyzePosture results h w = .assessment a) :
    (a.shoulder_distance = 0 → a.forward_head_ratio = 0) ∧
    (0 < a.shoulder_distance →
      a.forward_head_ratio =
        ((max 0 (a.landmarks.mid_ear.1 - a.landmarks.mid_shoulder.1) : ℤ) : ℝ) /
          a.shoulder_distance) := by
  obtain ⟨le, re, ls, rs, lh, rh, ha⟩ := analyzePosture_assessment_inv heq
  subst ha
  constructor
  · intro hsd
    simp only [fullAssessmentOf] at hsd ⊢
    rw [if_neg (by rw [hsd]; exact lt_irrefl 0)]
  · intro hsd
    simp only [fullAssessmentOf] at hsd ⊢
    rw [if_pos hsd, ite_sub_eq_max]

/-- Witness for C4 at a concrete frame. -/
theorem c4_witness :
    (goodA.shoulder_distance = 0 → goodA.forward_head_ratio = 0) ∧
    (0 < goodA.shoulder_distance →
      goodA.forward_head_ratio =
        ((max 0 (goodA.landmarks.mid_ear.1 - goodA.landmarks.mid_shoulder.1) : ℤ) : ℝ) /
          goodA.shoulder_distance) :=
  c4_forward_head_safety (some (some goodLm)) 100 100 goodA analyze_good_eval

/-- Claim C8: when a required landmark lookup fails (the list is shorter than
the 25 entries covering indices 0 to 24), the analyzer catches the failure
and returns the unavailable variant carrying the failure description; the
embedding is a total function, so no exception reaches the caller. -/
theorem c8_lookup_failure (lm : List Landmark) (h w : ℕ) (hlen : lm.length < 25) :
    analyzePosture (some (some lm)) h w =
      .unavailable "Error processing landmarks: list index out of range" none ∧
    (analyzePosture (some (some lm)) h w).has_landmarks = false := by
  have heq : analyzePosture (some (some lm)) h w =
      .unavailable "Error processing landmarks: list index out of range" none := by
    simp only [analyzePosture]
    rw [if_neg (by omega)]
  exact ⟨heq, by rw [heq]; rfl⟩

/-- Witness for C8: the empty landmark list. -/
theorem c8_witness :
    ([] : List Landmark).length < 25 ∧
    (analyzePosture (some (some ([] : List Landmark))) 100 100 =
      .unavailable "Error processing landmarks: list index out of range" none ∧
    (analyzePosture (some (some ([] : List Landmark))) 100 100).has_landmarks = false) :=
  ⟨by decide, c8_lookup_failure [] 100 100 (by decide)⟩

/-- Claim C10: when left shoulder, right shoulder and left hip are all at
visibility at least 0.5 and every lookup succeeds, the analyzer produces the
full assessment, computed from the ear entries whatever their visibility. -/
theorem c10_gate_pass (lm : List Landmark) (h w : ℕ) (hlen : 25 ≤ lm.length)
    (hvis : visibility_threshold ≤ (getLm lm LEFT_SHOULDER).visibility ∧
      visibility_threshold ≤ (getLm lm RIGHT_SHOULDER).visibility ∧
      visibility_threshold ≤ (getLm lm LEFT_HIP).visibility) :
    analyzePosture (some (some lm)) h w =
      .assessment (fullAssessmentOf (getLm lm LEFT_EAR) (getLm lm RIGHT_EAR)
        (getLm lm LEFT_SHOULDER) (getLm lm RIGHT_SHOULDER) (getLm lm LEFT_HIP)
        (getLm lm RIGHT_HIP) h w) ∧
    (analyzePosture (some (some lm)) h w).has_landmarks = true := by
  have heq : analyzePosture (some (some lm)) h w =
      .assessment (fullAssessmentOf (getLm lm LEFT_EAR) (getLm lm RIGHT_EAR)
        (getLm lm LEFT_SHOULDER) (getLm lm RIGHT_SHOULDER) (getLm lm LEFT_HIP)
        (getLm lm RIGHT_HIP) h w) := by
    rw [analyzePosture_of_length hlen]
    unfold computeAssessment
    rw [if_neg (by push_neg; exact hvis)]
  exact ⟨heq, by rw [heq]; rfl⟩

/-- Witness for C10: both ears at visibility 0 still yield a full
assessment. -/
theorem c10_witness :
    (getLm goodLm LEFT_EAR).visibility = 0 ∧ (getLm goodLm RIGHT_EAR).visibility = 0 ∧
    (analyzePosture (some (some goodLm)) 100 100).has_landmarks = true := by
  refine ⟨rfl, rfl, (c10_gate_pass goodLm 100 100 (by decide) ?_).2⟩
  rw [show getLm goodLm LEFT_SHOULDER = ⟨4/5, 1/2, 1⟩ from rfl,
    show getLm goodLm RIGHT_SHOULDER = ⟨2/5, 1/2, 1⟩ from rfl,
    show getLm goodLm LEFT_HIP = ⟨3/5, 9/10, 1⟩ from rfl]
  norm_num [visibility_threshold]

/-- `arctan` is nonnegative on nonnegative inputs. -/
lemma arctan_nonneg_of_nonneg {t : ℝ} (ht : 0 ≤ t) : 0 ≤ Real.arctan t := by
  rw [← Real.arctan_zero]
  exact Real.arctan_strictMono.monotone ht

/-- On nonnegative arguments `atan2` lands in `[0, pi/2]`. -/
lemma atan2_nonneg_bounds {y x : ℝ} (hy : 0 ≤ y) (hx : 0 ≤ x) :
    0 ≤ atan2 y x ∧ atan2 y x ≤ Real.pi / 2 := by
  have hπ := Real.pi_pos
  unfold atan2
  split_ifs with h1 h2 h3 h4 h5
  · exact ⟨arctan_nonneg_of_nonneg (div_nonneg hy h1.le),
      (Real.arctan_lt_pi_div_two _).le⟩
  · exact absurd h2.1 (not_lt.mpr hx)
  · exact absurd h3 (not_lt.mpr hx)
  · exact ⟨by positivity, le_rfl⟩
  · exact absurd h5 (not_lt.mpr hy)
  · exact ⟨le_rfl, by positivity⟩

/-- Claim C3: `find_angle` is exactly the truncated-degrees formula of the
source and always returns an integer in `[0, 90]`; the function is total, so
no input can raise. -/
theorem c3_find_angle_range (x1 y1 x2 y2 : ℝ) :
    find_angle x1 y1 x2 y2 = pyIntR (degrees (atan2 |x2 - x1| |y2 - y1|)) ∧
    0 ≤ find_angle x1 y1 x2 y2 ∧ find_angle x1 y1 x2 y2 ≤ 90 := by
  obtain ⟨h0, h2⟩ := atan2_nonneg_bounds (abs_nonneg (x2 - x1)) (abs_nonneg (y2 - y1))
  have hπ := Real.pi_pos
  have hd0 : 0 ≤ degrees (atan2 |x2 - x1| |y2 - y1|) := by
    unfold degrees
    exact div_nonneg (by nlinarith) hπ.le
  have hd90 : degrees (atan2 |x2 - x1| |y2 - y1|) ≤ 90 := by
    unfold degrees
    rw [div_le_iff₀ hπ]
    nlinarith
  refine ⟨rfl, ?_, ?_⟩
  · show 0 ≤ pyIntR (degrees (atan2 |x2 - x1| |y2 - y1|))
    unfold pyIntR
    rw [if_pos hd0]
    exact Int.floor_nonneg.mpr hd0
  · show pyIntR (degrees (atan2 |x2 - x1| |y2 - y1|)) ≤ 90
    unfold pyIntR
    rw [if_pos hd0]
    calc ⌊degrees (atan2 |x2 - x1| |y2 - y1|)⌋ ≤ ⌊(90 : ℝ)⌋ := Int.floor_le_floor hd90
    _ = 90 := by norm_num

/-- Claim C6: `find_distance` is symmetric and vanishes on equal points, and
`find_angle` is symmetric under swapping its two points. -/
theorem c6_symmetry (x1 y1 x2 y2 : ℝ) :
    find_distance x1 y1 x2 y2 = find_distance x2 y2 x1 y1 ∧
    find_distance x1 y1 x1 y1 = 0 ∧
    find_angle x1 y1 x2 y2 = find_angle x2 y2 x1 y1 := by
  refine ⟨?_, ?_, ?_⟩
  · unfold find_distance
    congr 1
    ring
  · unfold find_distance
    simp
  · unfold find_angle
    rw [abs_sub_comm x2 x1, abs_sub_comm y2 y1]

/-- Mean-value bounds for `arctan` on positive inputs. -/
lemma arctan_bounds_of_pos {x : ℝ} (hx : 0 < x) :
    x / (1 + x ^ 2) < Real.arctan x ∧ Real.arctan x < x := by
  obtain ⟨c, hc, hceq⟩ := exists_hasDerivAt_eq_slope Real.arctan (fun t => 1 / (1 + t ^ 2)) hx
    Real.continuous_arctan.continuousOn (fun t _ => Real.hasDerivAt_arctan t)
  rw [Real.arctan_zero, sub_zero, sub_zero] at hceq
  have h1c : (0 : ℝ) < 1 + c ^ 2 := by positivity
  have hc1 : 0 < c := hc.1
  have hc2 : c < x := hc.2
  have harc : Real.arctan x = x / (1 + c ^ 2) := by
    rw [div_eq_div_iff h1c.ne' hx.ne'] at hceq
    rw [eq_div_iff h1c.ne']
    linarith
  constructor
  · rw [harc]
    exact div_lt_div_of_pos_left hx h1c (by nlinarith)
  · rw [harc]
    exact div_lt_self hx (by nlinarith)

/-- Machin-style identity: `arctan (4/5) = pi/4 - arctan (1/9)`. -/
lemma arctan_four_fifths : Real.arctan (4 / 5) = Real.pi / 4 - Real.arctan (1 / 9) := by
  have h := Real.arctan_add (show (4 / 5 : ℝ) * (1 / 9) < 1 by norm_num)
  have h9 : ((4 : ℝ) / 5 + 1 / 9) / (1 - 4 / 5 * (1 / 9)) = 1 := by norm_num
  rw [h9, Real.arctan_one] at h
  linarith

/-- The neck angle at mid-shoulder (120,200), mid-ear (160,150) is 38: the
source truncates `degrees(atan2(40, 50))`, which lies in `(38, 39)`. -/
lemma find_angle_scenario_b : find_angle 120 200 160 150 = 38 := by
  have e1 : |(160 : ℝ) - 120| = 40 := by
    rw [abs_of_pos (by norm_num : (0 : ℝ) < 160 - 120)]
    norm_num
  have e2 : |(150 : ℝ) - 200| = 50 := by
    rw [abs_of_neg (by norm_num : (150 : ℝ) - 200 < 0)]
    norm_num
  have hπ3 := Real.pi_gt_three
  have hπ4 := Real.pi_lt_d2
  have hπ : (0 : ℝ) < Real.pi := by linarith
  have hub : Real.arctan (1 / 9) < 1 / 9 := (arctan_bounds_of_pos (by norm_num)).2
  have hlb : (9 : ℝ) / 82 < Real.arctan (1 / 9) := by
    have h := (arctan_bounds_of_pos (show (0 : ℝ) < 1 / 9 by norm_num)).1
    have e : ((1 : ℝ) / 9) / (1 + (1 / 9) ^ 2) = 9 / 82 := by norm_num
    rwa [e] at h
  have hlow : (38 : ℝ) ≤ Real.arctan (4 / 5) * 180 / Real.pi := by
    rw [le_div_iff₀ hπ, arctan_four_fifths]
    nlinarith
  have hhigh : Real.arctan (4 / 5) * 180 / Real.pi < 39 := by
    rw [div_lt_iff₀ hπ, arctan_four_fifths]
    nlinarith
  unfold find_angle
  rw [e1, e2]
  unfold atan2
  rw [if_pos (by norm_num : (0 : ℝ) < 50)]
  rw [show (40 : ℝ) / 50 = 4 / 5 by norm_num]
  unfold pyIntR degrees
  rw [if_pos (by linarith)]
  rw [Int.floor_eq_iff]
  refine ⟨?_, ?_⟩
  · push_cast
    linarith
  · push_cast
    linarith

/-- Claim C5 counterexample: at mid-shoulder (120,200) and mid-ear (160,150)
the code computes 38 degrees, not 39 — Python `int` truncates
`degrees(atan2(40, 50)) = 38.65...` instead of rounding it. -/
theorem c5_counterexample : ¬(find_angle 120 200 160 150 = 39) := by
  rw [find_angle_scenario_b]
  decide

/-- Claim C5 (amended): at those midpoints the computed neck inclination is
38 degrees, and the neck judgment is still false since 38 is not below the
35-degree threshold. -/
theorem c5_amended_neck_angle :
    find_angle 120 200 160 150 = 38 ∧ ¬(find_angle 120 200 160 150 < 35) := by
  refine ⟨find_angle_scenario_b, ?_⟩
  rw [find_angle_scenario_b]
  decide

/-- Claim C7: with an absent detection result, or one containing no landmark
set, `analyze_posture` returns the unavailable variant with message exactly
"No pose landmarks detected." and no visibility map. -/
theorem c7_no_landmarks (h w : ℕ) :
    analyzePosture none h w = .unavailable "No pose landmarks detected." none ∧
    analyzePosture (some none) h w = .unavailable "No pose landmarks detected." none :=
  ⟨rfl, rfl⟩

/-- Claim C9: for every frame and every unavailable assessment, the renderer
returns the input frame unmodified (and likewise for a falsy assessment). -/
theorem c9_renderer_noop {F : Type} (ops : DrawOps F) (frame : F) (message : String)
    (vis : Option (List (String × ℚ))) :
    draw_pose_annotations ops frame (some (.unavailable message vis)) = frame ∧
    draw_pose_annotations ops frame none = frame :=
  ⟨rfl, rfl⟩

end PostureEstimation
